import Mathlib

/-!
Shallow embedding of the PIC16F88 instruction-set simulator from `stk`
(crates/stk_pic_vm): the instruction ADT and bitmask decoder (`inst.rs`),
the banked register file (`vm/mod.rs`, module `reg`), and the execution
engine (`P16F88::exec` / `P16F88::step`).  Machine integers (u8/u16) are
modelled as `Nat` with explicit `% 256` where wrap-around matters; Rust
panics (fatal errors) are modelled as `none`.
-/

namespace StkPic

/-! ### Instruction ADT (`inst.rs`) -/

/-- `Destination`: result goes to W or back to the file register. -/
inductive Destination where
  | w
  | f
  deriving DecidableEq, Repr

/-- `ByteOrientedOperation` from `inst.rs`. -/
inductive ByteOrientedOperation where
  | addWf
  | andWf
  | complementF
  | decrementF
  | decrementFSkipIfZ
  | incrementF
  | incrementFSkipIfZ
  | orWf
  | moveF
  | rotateLeftFThroughCarry
  | rotateRightFThroughCarry
  | subtractWfromF
  | swapF
  | xorWwithF
  deriving DecidableEq, Repr

/-- `ByteOrientedInstruction`: operation, 7-bit file address, destination. -/
structure ByteOrientedInstruction where
  op : ByteOrientedOperation
  f : Nat
  dest : Destination
  deriving DecidableEq, Repr

/-- `BitOrientedOperation` from `inst.rs`. -/
inductive BitOrientedOperation where
  | bitClearF
  | bitSetF
  | skipIfFBitClear
  | skipIfFBitSet
  deriving DecidableEq, Repr

/-- `BitOrientedInstruction`: operation, 3-bit index, 7-bit file address. -/
structure BitOrientedInstruction where
  op : BitOrientedOperation
  b : Nat
  f : Nat
  deriving DecidableEq, Repr

/-- `LiteralOrientedOperation` from `inst.rs`. -/
inductive LiteralOrientedOperation where
  | subtractWFromLiteral
  | xorLiteralWithW
  | orLiteralWithW
  | moveLiteralToW
  | returnWithLiteralInW
  | addLiteralToW
  | andLiteralWithW
  deriving DecidableEq, Repr

/-- `LiteralOrientedInstruction`: operation and 8-bit literal. -/
structure LiteralOrientedInstruction where
  op : LiteralOrientedOperation
  k : Nat
  deriving DecidableEq, Repr

/-- `ControlInstruction` from `inst.rs`.  `ret` stands for the Rust variant
`Return`, `goto`/`call` carry the 11-bit program address. -/
inductive ControlInstruction where
  | clearWatchDogTimer
  | returnFromInterrupt
  | ret
  | sleep
  | noop
  | goto (addr : Nat)
  | call (addr : Nat)
  | clearF (f : Nat)
  | clearW
  | moveWtoF (f : Nat)
  deriving DecidableEq, Repr

/-- `Instruction`: the four variant classes. -/
inductive Instruction where
  | byteOriented (i : ByteOrientedInstruction)
  | bitOriented (i : BitOrientedInstruction)
  | literalOriented (i : LiteralOrientedInstruction)
  | control (i : ControlInstruction)
  deriving DecidableEq, Repr

/-! ### Decoder (`inst.rs`, `from_code` functions)

Each decoder is the expansion of the corresponding bitmask macro: a chain of
`(word & mask) == value` tests in source order. -/

/-- `ByteOrientedInstruction::from_code`: mask `0x3f00`,
value is the 6-bit opcode shifted left by 8; `f = word & 0x7F`;
`dest = F` when bit 7 is set. -/
def byteOrientedFromCode (i : Nat) : Option ByteOrientedInstruction :=
  let dest : Destination :=
    if i &&& 0x80 = 0 then .w else .f
  let f : Nat := i &&& 0x7f
  if i &&& 0x3f00 = 0x7 <<< 8 then
    some ⟨.addWf, f, dest⟩
  else if i &&& 0x3f00 = 0x5 <<< 8 then
    some ⟨.andWf, f, dest⟩
  else if i &&& 0x3f00 = 0x9 <<< 8 then
    some ⟨.complementF, f, dest⟩
  else if i &&& 0x3f00 = 0x3 <<< 8 then
    some ⟨.decrementF, f, dest⟩
  else if i &&& 0x3f00 = 0xb <<< 8 then
    some ⟨.decrementFSkipIfZ, f, dest⟩
  else if i &&& 0x3f00 = 0xa <<< 8 then
    some ⟨.incrementF, f, dest⟩
  else if i &&& 0x3f00 = 0xf <<< 8 then
    some ⟨.incrementFSkipIfZ, f, dest⟩
  else if i &&& 0x3f00 = 0x4 <<< 8 then
    some ⟨.orWf, f, dest⟩
  else if i &&& 0x3f00 = 0x8 <<< 8 then
    some ⟨.moveF, f, dest⟩
  else if i &&& 0x3f00 = 0xd <<< 8 then
    some ⟨.rotateLeftFThroughCarry, f, dest⟩
  else if i &&& 0x3f00 = 0xc <<< 8 then
    some ⟨.rotateRightFThroughCarry, f, dest⟩
  else if i &&& 0x3f00 = 0x2 <<< 8 then
    some ⟨.subtractWfromF, f, dest⟩
  else if i &&& 0x3f00 = 0xe <<< 8 then
    some ⟨.swapF, f, dest⟩
  else if i &&& 0x3f00 = 0x6 <<< 8 then
    some ⟨.xorWwithF, f, dest⟩
  else none

/-- `BitOrientedInstruction::from_code`: mask `0x3c00`;
`b = (word >> 7) & 0x7`; `f = word & 0x7F`. -/
def bitOrientedFromCode (i : Nat) : Option BitOrientedInstruction :=
  let b : Nat := (i &&& 0x380) >>> 7
  let f : Nat := i &&& 0x7f
  if i &&& 0x3c00 = 0x10 <<< 8 then
    some ⟨.bitClearF, b, f⟩
  else if i &&& 0x3c00 = 0x14 <<< 8 then
    some ⟨.bitSetF, b, f⟩
  else if i &&& 0x3c00 = 0x18 <<< 8 then
    some ⟨.skipIfFBitClear, b, f⟩
  else if i &&& 0x3c00 = 0x1c <<< 8 then
    some ⟨.skipIfFBitSet, b, f⟩
  else none

/-- `LiteralOrientedInstruction::from_code`: per-opcode masks tested in
source order; `k = word & 0xFF`. -/
def literalOrientedFromCode (i : Nat) : Option LiteralOrientedInstruction :=
  let k : Nat := i &&& 0xff
  if i &&& (0x3c <<< 8) = 0x30 <<< 8 then
    some ⟨.moveLiteralToW, k⟩
  else if i &&& (0x3e <<< 8) = 0x3e <<< 8 then
    some ⟨.addLiteralToW, k⟩
  else if i &&& (0x3f <<< 8) = 0x39 <<< 8 then
    some ⟨.andLiteralWithW, k⟩
  else if i &&& (0x3f <<< 8) = 0x38 <<< 8 then
    some ⟨.orLiteralWithW, k⟩
  else if i &&& (0x3c <<< 8) = 0x34 <<< 8 then
    some ⟨.returnWithLiteralInW, k⟩
  else if i &&& (0x3e <<< 8) = 0x3c <<< 8 then
    some ⟨.subtractWFromLiteral, k⟩
  else if i &&& (0x3f <<< 8) = 0x3a <<< 8 then
    some ⟨.xorLiteralWithW, k⟩
  else none

/-- `ControlInstruction::from_code`: the `bitmaskeq!` match, arms in source
order.  Exact literal arms compare the whole word; `m_...` arms are
`(word & mask) == value` with the capture being `word & capture_mask`. -/
def controlFromCode (i : Nat) : Option ControlInstruction :=
  if i = 0x8 then some .ret
  else if i = 0x64 then some .clearWatchDogTimer
  else if i = 0x9 then some .returnFromInterrupt
  else if i = 0x63 then some .sleep
  else if i &&& 0x3f9f = 0x0 then some .noop
  else if i &&& 0x3f80 = 0x100 then some .clearW
  else if i &&& 0x3800 = 0x2800 then
    some (.goto (i &&& 0x7ff))
  else if i &&& 0x3800 = 0x2000 then
    some (.call (i &&& 0x7ff))
  else if i &&& 0x3f80 = 0x180 then
    some (.clearF (i &&& 0x7f))
  else if i &&& 0x3f80 = 0x80 then
    some (.moveWtoF (i &&& 0x7f))
  else none

/-- `Instruction::from_code`: byte-oriented, then bit-oriented, then
literal-oriented, then control. -/
def instructionFromCode (i : Nat) : Option Instruction :=
  ((byteOrientedFromCode i).map Instruction.byteOriented).or
    (((bitOrientedFromCode i).map Instruction.bitOriented).or
      (((literalOrientedFromCode i).map Instruction.literalOriented).or
        ((controlFromCode i).map Instruction.control)))

/-! ### Banked register file (`vm/mod.rs`, module `reg`) -/

/-- The named special-function registers of the `special_registers!` table. -/
inductive SfrName where
  | iaddr
  | unimpl
  | reserv
  | tmr0
  | pcl
  | status
  | fsr
  | porta
  | portb
  | pclath
  | intcon
  | pir1
  | pir2
  | tmr1l
  | tmr1h
  | t1con
  | tmr2
  | t2con
  | sspbuf
  | sspcon
  | ccpr1l
  | ccpr1h
  | ccp1con
  | rcsta
  | txreg
  | rcreg
  | adresh
  | adcon0
  | optionReg
  | trisa
  | trisb
  | pie1
  | pie2
  | pcon
  | osccon
  | osctune
  | pr2
  | sspadd
  | sspstat
  | txsta
  | spbrg
  | ansel
  | cmcon
  | cvrcon
  | wdtcon
  | adresl
  | adcon1
  | eedata
  | eeadr
  | eedath
  | eeadrh
  | eecon1
  | eecon2
  deriving DecidableEq, Repr

/-- SFRs generated with the `unimpl` stub: reading logs and returns 0,
writing panics (IADDR, UNIMPL, RESERV rows of the table). -/
def unimplKind : SfrName → Bool
  | .iaddr => true
  | .unimpl => true
  | .reserv => true
  | _ => false

/-- Initial values from the `special_registers!` table (column `init`). -/
def sfrInit : SfrName → Nat
  | .status => 0x18
  | .optionReg => 0xFF
  | .trisa => 0xFF
  | .trisb => 0xFF
  | .pr2 => 0xFF
  | .txsta => 0x02
  | .ansel => 0x7F
  | .cmcon => 0x07
  | .wdtcon => 0x08
  | _ => 0

/-- A resolved register cell: a named SFR or an index into the 368-cell
GPR array. -/
inductive Cell where
  | sfr (n : SfrName)
  | gpr (idx : Nat)
  deriving DecidableEq, Repr

/-- Selects one of the four bank columns of a `register_map!` row. -/
def bank4 (bank : Nat) (c0 c1 c2 c3 : Cell) : Cell :=
  match bank with
  | 0 => c0
  | 1 => c1
  | 2 => c2
  | _ => c3

/-- The `register_map!` table: `(bank, addr)` to cell, row for row as in
the source.  Callers guard `addr < 0x80` and `bank < 4`; the fallback arm
is unreachable under those guards. -/
def registerMap (bank addr : Nat) : Cell :=
  match addr with
  | 0x00 => bank4 bank (.sfr .iaddr) (.sfr .iaddr) (.sfr .iaddr) (.sfr .iaddr)
  | 0x01 => bank4 bank (.sfr .tmr0) (.sfr .optionReg) (.sfr .tmr0) (.sfr .optionReg)
  | 0x02 => bank4 bank (.sfr .pcl) (.sfr .pcl) (.sfr .pcl) (.sfr .pcl)
  | 0x03 => bank4 bank (.sfr .status) (.sfr .status) (.sfr .status) (.sfr .status)
  | 0x04 => bank4 bank (.sfr .fsr) (.sfr .fsr) (.sfr .fsr) (.sfr .fsr)
  | 0x05 => bank4 bank (.sfr .porta) (.sfr .trisa) (.sfr .wdtcon) (.sfr .unimpl)
  | 0x06 => bank4 bank (.sfr .portb) (.sfr .trisb) (.sfr .portb) (.sfr .trisb)
  | 0x07 => bank4 bank (.sfr .unimpl) (.sfr .unimpl) (.sfr .unimpl) (.sfr .unimpl)
  | 0x08 => bank4 bank (.sfr .unimpl) (.sfr .unimpl) (.sfr .unimpl) (.sfr .unimpl)
  | 0x09 => bank4 bank (.sfr .unimpl) (.sfr .unimpl) (.sfr .unimpl) (.sfr .unimpl)
  | 0x0A => bank4 bank (.sfr .pclath) (.sfr .pclath) (.sfr .pclath) (.sfr .pclath)
  | 0x0B => bank4 bank (.sfr .intcon) (.sfr .intcon) (.sfr .intcon) (.sfr .intcon)
  | 0x0C => bank4 bank (.sfr .pir1) (.sfr .pie1) (.sfr .eedata) (.sfr .eecon1)
  | 0x0D => bank4 bank (.sfr .pir2) (.sfr .pie2) (.sfr .eeadr) (.sfr .eecon2)
  | 0x0E => bank4 bank (.sfr .tmr1l) (.sfr .pcon) (.sfr .eedath) (.sfr .reserv)
  | 0x0F => bank4 bank (.sfr .tmr1h) (.sfr .osccon) (.sfr .eeadrh) (.sfr .reserv)
  | 0x10 => bank4 bank (.sfr .t1con) (.sfr .osctune) (.gpr 176) (.gpr 272)
  | 0x11 => bank4 bank (.sfr .tmr2) (.sfr .unimpl) (.gpr 177) (.gpr 273)
  | 0x12 => bank4 bank (.sfr .t2con) (.sfr .pr2) (.gpr 178) (.gpr 274)
  | 0x13 => bank4 bank (.sfr .sspbuf) (.sfr .sspadd) (.gpr 179) (.gpr 275)
  | 0x14 => bank4 bank (.sfr .sspcon) (.sfr .sspstat) (.gpr 180) (.gpr 276)
  | 0x15 => bank4 bank (.sfr .ccpr1l) (.sfr .unimpl) (.gpr 181) (.gpr 277)
  | 0x16 => bank4 bank (.sfr .ccpr1h) (.sfr .unimpl) (.gpr 182) (.gpr 278)
  | 0x17 => bank4 bank (.sfr .ccp1con) (.sfr .unimpl) (.gpr 183) (.gpr 279)
  | 0x18 => bank4 bank (.sfr .rcsta) (.sfr .txsta) (.gpr 184) (.gpr 280)
  | 0x19 => bank4 bank (.sfr .txreg) (.sfr .spbrg) (.gpr 185) (.gpr 281)
  | 0x1A => bank4 bank (.sfr .rcreg) (.sfr .unimpl) (.gpr 186) (.gpr 282)
  | 0x1B => bank4 bank (.sfr .unimpl) (.sfr .unimpl) (.gpr 187) (.gpr 283)
  | 0x1C => bank4 bank (.sfr .unimpl) (.sfr .cmcon) (.gpr 188) (.gpr 284)
  | 0x1D => bank4 bank (.sfr .unimpl) (.sfr .cvrcon) (.gpr 189) (.gpr 285)
  | 0x1E => bank4 bank (.sfr .unimpl) (.sfr .unimpl) (.gpr 190) (.gpr 286)
  | 0x1F => bank4 bank (.sfr .unimpl) (.sfr .unimpl) (.gpr 191) (.gpr 287)
  | 0x20 => bank4 bank (.gpr 0) (.gpr 96) (.gpr 192) (.gpr 288)
  | 0x21 => bank4 bank (.gpr 1) (.gpr 97) (.gpr 193) (.gpr 289)
  | 0x22 => bank4 bank (.gpr 2) (.gpr 98) (.gpr 194) (.gpr 290)
  | 0x23 => bank4 bank (.gpr 3) (.gpr 99) (.gpr 195) (.gpr 291)
  | 0x24 => bank4 bank (.gpr 4) (.gpr 100) (.gpr 196) (.gpr 292)
  | 0x25 => bank4 bank (.gpr 5) (.gpr 101) (.gpr 197) (.gpr 293)
  | 0x26 => bank4 bank (.gpr 6) (.gpr 102) (.gpr 198) (.gpr 294)
  | 0x27 => bank4 bank (.gpr 7) (.gpr 103) (.gpr 199) (.gpr 295)
  | 0x28 => bank4 bank (.gpr 8) (.gpr 104) (.gpr 200) (.gpr 296)
  | 0x29 => bank4 bank (.gpr 9) (.gpr 105) (.gpr 201) (.gpr 297)
  | 0x2A => bank4 bank (.gpr 10) (.gpr 106) (.gpr 202) (.gpr 298)
  | 0x2B => bank4 bank (.gpr 11) (.gpr 107) (.gpr 203) (.gpr 299)
  | 0x2C => bank4 bank (.gpr 12) (.gpr 108) (.gpr 204) (.gpr 300)
  | 0x2D => bank4 bank (.gpr 13) (.gpr 109) (.gpr 205) (.gpr 301)
  | 0x2E => bank4 bank (.gpr 14) (.gpr 110) (.gpr 206) (.gpr 302)
  | 0x2F => bank4 bank (.gpr 15) (.gpr 111) (.gpr 207) (.gpr 303)
  | 0x30 => bank4 bank (.gpr 16) (.gpr 112) (.gpr 208) (.gpr 304)
  | 0x31 => bank4 bank (.gpr 17) (.gpr 113) (.gpr 209) (.gpr 305)
  | 0x32 => bank4 bank (.gpr 18) (.gpr 114) (.gpr 210) (.gpr 306)
  | 0x33 => bank4 bank (.gpr 19) (.gpr 115) (.gpr 211) (.gpr 307)
  | 0x34 => bank4 bank (.gpr 20) (.gpr 116) (.gpr 212) (.gpr 308)
  | 0x35 => bank4 bank (.gpr 21) (.gpr 117) (.gpr 213) (.gpr 309)
  | 0x36 => bank4 bank (.gpr 22) (.gpr 118) (.gpr 214) (.gpr 310)
  | 0x37 => bank4 bank (.gpr 23) (.gpr 119) (.gpr 215) (.gpr 311)
  | 0x38 => bank4 bank (.gpr 24) (.gpr 120) (.gpr 216) (.gpr 312)
  | 0x39 => bank4 bank (.gpr 25) (.gpr 121) (.gpr 217) (.gpr 313)
  | 0x3A => bank4 bank (.gpr 26) (.gpr 122) (.gpr 218) (.gpr 314)
  | 0x3B => bank4 bank (.gpr 27) (.gpr 123) (.gpr 219) (.gpr 315)
  | 0x3C => bank4 bank (.gpr 28) (.gpr 124) (.gpr 220) (.gpr 316)
  | 0x3D => bank4 bank (.gpr 29) (.gpr 125) (.gpr 221) (.gpr 317)
  | 0x3E => bank4 bank (.gpr 30) (.gpr 126) (.gpr 222) (.gpr 318)
  | 0x3F => bank4 bank (.gpr 31) (.gpr 127) (.gpr 223) (.gpr 319)
  | 0x40 => bank4 bank (.gpr 32) (.gpr 128) (.gpr 224) (.gpr 320)
  | 0x41 => bank4 bank (.gpr 33) (.gpr 129) (.gpr 225) (.gpr 321)
  | 0x42 => bank4 bank (.gpr 34) (.gpr 130) (.gpr 226) (.gpr 322)
  | 0x43 => bank4 bank (.gpr 35) (.gpr 131) (.gpr 227) (.gpr 323)
  | 0x44 => bank4 bank (.gpr 36) (.gpr 132) (.gpr 228) (.gpr 324)
  | 0x45 => bank4 bank (.gpr 37) (.gpr 133) (.gpr 229) (.gpr 325)
  | 0x46 => bank4 bank (.gpr 38) (.gpr 134) (.gpr 230) (.gpr 326)
  | 0x47 => bank4 bank (.gpr 39) (.gpr 135) (.gpr 231) (.gpr 327)
  | 0x48 => bank4 bank (.gpr 40) (.gpr 136) (.gpr 232) (.gpr 328)
  | 0x49 => bank4 bank (.gpr 41) (.gpr 137) (.gpr 233) (.gpr 329)
  | 0x4A => bank4 bank (.gpr 42) (.gpr 138) (.gpr 234) (.gpr 330)
  | 0x4B => bank4 bank (.gpr 43) (.gpr 139) (.gpr 235) (.gpr 331)
  | 0x4C => bank4 bank (.gpr 44) (.gpr 140) (.gpr 236) (.gpr 332)
  | 0x4D => bank4 bank (.gpr 45) (.gpr 141) (.gpr 237) (.gpr 333)
  | 0x4E => bank4 bank (.gpr 46) (.gpr 142) (.gpr 238) (.gpr 334)
  | 0x4F => bank4 bank (.gpr 47) (.gpr 143) (.gpr 239) (.gpr 335)
  | 0x50 => bank4 bank (.gpr 48) (.gpr 144) (.gpr 240) (.gpr 336)
  | 0x51 => bank4 bank (.gpr 49) (.gpr 145) (.gpr 241) (.gpr 337)
  | 0x52 => bank4 bank (.gpr 50) (.gpr 146) (.gpr 242) (.gpr 338)
  | 0x53 => bank4 bank (.gpr 51) (.gpr 147) (.gpr 243) (.gpr 339)
  | 0x54 => bank4 bank (.gpr 52) (.gpr 148) (.gpr 244) (.gpr 340)
  | 0x55 => bank4 bank (.gpr 53) (.gpr 149) (.gpr 245) (.gpr 341)
  | 0x56 => bank4 bank (.gpr 54) (.gpr 150) (.gpr 246) (.gpr 342)
  | 0x57 => bank4 bank (.gpr 55) (.gpr 151) (.gpr 247) (.gpr 343)
  | 0x58 => bank4 bank (.gpr 56) (.gpr 152) (.gpr 248) (.gpr 344)
  | 0x59 => bank4 bank (.gpr 57) (.gpr 153) (.gpr 249) (.gpr 345)
  | 0x5A => bank4 bank (.gpr 58) (.gpr 154) (.gpr 250) (.gpr 346)
  | 0x5B => bank4 bank (.gpr 59) (.gpr 155) (.gpr 251) (.gpr 347)
  | 0x5C => bank4 bank (.gpr 60) (.gpr 156) (.gpr 252) (.gpr 348)
  | 0x5D => bank4 bank (.gpr 61) (.gpr 157) (.gpr 253) (.gpr 349)
  | 0x5E => bank4 bank (.gpr 62) (.gpr 158) (.gpr 254) (.gpr 350)
  | 0x5F => bank4 bank (.gpr 63) (.gpr 159) (.gpr 255) (.gpr 351)
  | 0x60 => bank4 bank (.gpr 64) (.gpr 160) (.gpr 256) (.gpr 352)
  | 0x61 => bank4 bank (.gpr 65) (.gpr 161) (.gpr 257) (.gpr 353)
  | 0x62 => bank4 bank (.gpr 66) (.gpr 162) (.gpr 258) (.gpr 354)
  | 0x63 => bank4 bank (.gpr 67) (.gpr 163) (.gpr 259) (.gpr 355)
  | 0x64 => bank4 bank (.gpr 68) (.gpr 164) (.gpr 260) (.gpr 356)
  | 0x65 => bank4 bank (.gpr 69) (.gpr 165) (.gpr 261) (.gpr 357)
  | 0x66 => bank4 bank (.gpr 70) (.gpr 166) (.gpr 262) (.gpr 358)
  | 0x67 => bank4 bank (.gpr 71) (.gpr 167) (.gpr 263) (.gpr 359)
  | 0x68 => bank4 bank (.gpr 72) (.gpr 168) (.gpr 264) (.gpr 360)
  | 0x69 => bank4 bank (.gpr 73) (.gpr 169) (.gpr 265) (.gpr 361)
  | 0x6A => bank4 bank (.gpr 74) (.gpr 170) (.gpr 266) (.gpr 362)
  | 0x6B => bank4 bank (.gpr 75) (.gpr 171) (.gpr 267) (.gpr 363)
  | 0x6C => bank4 bank (.gpr 76) (.gpr 172) (.gpr 268) (.gpr 364)
  | 0x6D => bank4 bank (.gpr 77) (.gpr 173) (.gpr 269) (.gpr 365)
  | 0x6E => bank4 bank (.gpr 78) (.gpr 174) (.gpr 270) (.gpr 366)
  | 0x6F => bank4 bank (.gpr 79) (.gpr 175) (.gpr 271) (.gpr 367)
  | 0x70 => bank4 bank (.gpr 80) (.gpr 80) (.gpr 80) (.gpr 80)
  | 0x71 => bank4 bank (.gpr 81) (.gpr 81) (.gpr 81) (.gpr 81)
  | 0x72 => bank4 bank (.gpr 82) (.gpr 82) (.gpr 82) (.gpr 82)
  | 0x73 => bank4 bank (.gpr 83) (.gpr 83) (.gpr 83) (.gpr 83)
  | 0x74 => bank4 bank (.gpr 84) (.gpr 84) (.gpr 84) (.gpr 84)
  | 0x75 => bank4 bank (.gpr 85) (.gpr 85) (.gpr 85) (.gpr 85)
  | 0x76 => bank4 bank (.gpr 86) (.gpr 86) (.gpr 86) (.gpr 86)
  | 0x77 => bank4 bank (.gpr 87) (.gpr 87) (.gpr 87) (.gpr 87)
  | 0x78 => bank4 bank (.gpr 88) (.gpr 88) (.gpr 88) (.gpr 88)
  | 0x79 => bank4 bank (.gpr 89) (.gpr 89) (.gpr 89) (.gpr 89)
  | 0x7A => bank4 bank (.gpr 90) (.gpr 90) (.gpr 90) (.gpr 90)
  | 0x7B => bank4 bank (.gpr 91) (.gpr 91) (.gpr 91) (.gpr 91)
  | 0x7C => bank4 bank (.gpr 92) (.gpr 92) (.gpr 92) (.gpr 92)
  | 0x7D => bank4 bank (.gpr 93) (.gpr 93) (.gpr 93) (.gpr 93)
  | 0x7E => bank4 bank (.gpr 94) (.gpr 94) (.gpr 94) (.gpr 94)
  | 0x7F => bank4 bank (.gpr 95) (.gpr 95) (.gpr 95) (.gpr 95)
  | _ => .sfr .unimpl

/-! ### VM state (`P16F88` fields plus the register file contents) -/

/-- The simulator state: W, byte program counter, flash image, call stack
(top of stack at the head of the list; the source pushes and pops at the
back of an `ArrayVec` of capacity 8), the 368 GPR cells and the SFR
values. -/
structure VMState where
  w : Nat
  pc : Nat
  flash : Nat → Nat
  callStack : List Nat
  gpr : Nat → Nat
  sfr : SfrName → Nat

/-- `P16F88::new`: PC = 0, W = 0, empty call stack, GPRs zeroed, SFRs at
their table init values. -/
def initialState (flash : Nat → Nat) : VMState :=
  { w := 0, pc := 0, flash := flash, callStack := [],
    gpr := fun _ => 0, sfr := sfrInit }

/-- `Register::read` of a resolved cell: `unimpl`-stub SFRs read as 0,
every other cell reads its stored byte. -/
def cellRead (s : VMState) : Cell → Nat
  | .sfr n => if unimplKind n then 0 else s.sfr n
  | .gpr i => s.gpr i

/-- `Register::write` of a resolved cell: writing an `unimpl`-stub SFR is
fatal (`none`); every other cell stores the byte. -/
def cellWrite (s : VMState) (c : Cell) (v : Nat) : Option VMState :=
  match c with
  | .sfr n =>
      if unimplKind n then none
      else some { s with sfr := fun m => if m = n then v else s.sfr m }
  | .gpr i => some { s with gpr := fun j => if j = i then v else s.gpr j }

/-- STATUS carry flag bit (bit 0). -/
def flagC : Nat := 1

/-- STATUS digit-carry flag bit (bit 1). -/
def flagDC : Nat := 2

/-- STATUS zero flag bit (bit 2). -/
def flagZ : Nat := 4

/-- The bank selector: STATUS bits 6:5, as in `Registers::at`. -/
def bankOf (s : VMState) : Nat := (s.sfr SfrName.status &&& 0x60) >>> 5

/-- `Registers::at`: derive the bank from STATUS, panic (`none`) on bank
of 4 or more or address of 0x80 or more, otherwise look the cell up in the
map. -/
def registerAt (s : VMState) (addr : Nat) : Option Cell :=
  let bank := bankOf s
  if 4 <= bank then none
  else if 0x80 <= addr then none
  else some (registerMap bank addr)

/-- `STATUS::set` via `status_mut()`: insert or remove one flag bit in the
STATUS byte. -/
def statusSet (s : VMState) (mask : Nat) (b : Bool) : VMState :=
  { s with sfr := fun m =>
      if m = SfrName.status then
        (if b then s.sfr SfrName.status ||| mask
         else s.sfr SfrName.status &&& (mask ^^^ 0xFF))
      else s.sfr m }

/-- `STATUS::contains`: all bits of `mask` are set in the STATUS byte. -/
def statusContains (s : VMState) (mask : Nat) : Bool :=
  s.sfr SfrName.status &&& mask == mask

/-! ### Execution engine (`P16F88::exec` / `P16F88::step`) -/

/-- Bit `i` of `x` is set; the `at` closure of `P16F88::dc`. -/
def dcAt (x i : Nat) : Bool := x &&& (1 <<< i) != 0

/-- `P16F88::dc`: digit carry of the 8-bit add `a + b`, computed by the
carry-lookahead expression of the source. -/
def dc (a b : Nat) : Bool :=
  let g := fun i => dcAt a i && dcAt b i
  let p := fun i => dcAt a i || dcAt b i
  g 3 || (g 2 && p 3) || (g 1 && p 2 && p 3) || (g 0 && p 1 && p 2 && p 3)

/-- The `gen!(@byte ...)` macro arm: read the file cell, run the operation
body (which may update STATUS and yields the result byte), store the result
in W or back into the freshly re-resolved file cell, advance PC by 2, tick
one cycle. -/
def execByteOp (s : VMState) (f : Nat) (dest : Destination)
    (op : Nat -> VMState -> Nat × VMState) : Option (VMState × Nat) :=
  match dest with
  | .w => do
      let c <- registerAt s f
      let r := cellRead s c
      let (res, s1) := op r s
      let s2 := { s1 with w := res }
      some ({ s2 with pc := s2.pc + 2 }, 1)
  | .f => do
      let c <- registerAt s f
      let r := cellRead s c
      let (res, s1) := op r s
      let c2 <- registerAt s1 f
      let s2 <- cellWrite s1 c2 res
      some ({ s2 with pc := s2.pc + 2 }, 1)

/-- `P16F88::exec`: one instruction, returning the successor state and the
cycle count passed to the ticker, or `none` where the source panics. -/
def exec (s : VMState) (inst : Instruction) : Option (VMState × Nat) :=
  match inst with
  | .byteOriented ⟨.addWf, f, dest⟩ =>
      execByteOp s f dest (fun b st =>
        let a := st.w
        let ret := (a + b) % 256
        let st := statusSet st flagZ (ret == 0)
        let st := statusSet st flagC (decide (256 <= a + b))
        let st := statusSet st flagDC (dc a b)
        (ret, st))
  | .byteOriented ⟨.andWf, f, dest⟩ =>
      execByteOp s f dest (fun x st =>
        let ret := st.w &&& x
        (ret, statusSet st flagZ (ret == 0)))
  | .byteOriented ⟨.complementF, f, dest⟩ =>
      execByteOp s f dest (fun x st =>
        let ret := x ^^^ 0xFF
        (ret, statusSet st flagZ (ret == 0)))
  | .byteOriented ⟨.decrementF, f, dest⟩ =>
      -- NOTE: the source body computes `x.wrapping_add(1)` here.
      execByteOp s f dest (fun x st =>
        let ret := (x + 1) % 256
        (ret, statusSet st flagZ (ret == 0)))
  | .byteOriented ⟨.decrementFSkipIfZ, f, dest⟩ => do
      let c <- registerAt s f
      let ret := (cellRead s c + 255) % 256
      let s1 <-
        match dest with
        | .w => some { s with w := ret }
        | .f => do
            let c2 <- registerAt s f
            cellWrite s c2 ret
      let skip := ret == 0
      some ({ s1 with pc := s1.pc + (if skip then 4 else 2) },
            if skip then 2 else 1)
  | .byteOriented ⟨.incrementF, f, dest⟩ =>
      execByteOp s f dest (fun x st =>
        let ret := (x + 1) % 256
        (ret, statusSet st flagZ (ret == 0)))
  | .byteOriented ⟨.incrementFSkipIfZ, f, dest⟩ => do
      let c <- registerAt s f
      let ret := (cellRead s c + 1) % 256
      let s1 <-
        match dest with
        | .w => some { s with w := ret }
        | .f => do
            let c2 <- registerAt s f
            cellWrite s c2 ret
      let skip := ret == 0
      some ({ s1 with pc := s1.pc + (if skip then 4 else 2) },
            if skip then 2 else 1)
  | .byteOriented ⟨.orWf, f, dest⟩ =>
      execByteOp s f dest (fun x st =>
        let ret := st.w ||| x
        (ret, statusSet st flagZ (ret == 0)))
  | .byteOriented ⟨.moveF, f, dest⟩ =>
      execByteOp s f dest (fun x st =>
        let ret := x
        (ret, statusSet st flagZ (ret == 0)))
  | .byteOriented ⟨.rotateLeftFThroughCarry, f, dest⟩ =>
      execByteOp s f dest (fun x st =>
        let fMsb := x &&& 0x80 != 0
        let ret0 := (x <<< 1) % 256
        let ret := if statusContains st flagC then ret0 ||| 1 else ret0
        (ret, statusSet st flagC fMsb))
  | .byteOriented ⟨.rotateRightFThroughCarry, f, dest⟩ =>
      execByteOp s f dest (fun x st =>
        let fLsb := x &&& 0x01 != 0
        let ret0 := x >>> 1
        let ret := if statusContains st flagC then ret0 ||| 0x80 else ret0
        (ret, statusSet st flagC fLsb))
  | .byteOriented ⟨.subtractWfromF, f, dest⟩ =>
      -- NOTE: the source computes `self.w.overflowing_sub(b)`, i.e. W - v.
      execByteOp s f dest (fun b st =>
        let a := st.w
        let ret := (a + 256 - b) % 256
        let st := statusSet st flagZ (ret == 0)
        let st := statusSet st flagC (decide (a < b))
        let st := statusSet st flagDC (dc a (((b ^^^ 0xFF) + 1) % 256))
        (ret, st))
  | .byteOriented ⟨.swapF, f, dest⟩ =>
      execByteOp s f dest (fun x st =>
        let left := x &&& 0xF0
        let right := x &&& 0x0F
        (((right <<< 4) % 256) ||| (left >>> 4), st))
  | .byteOriented ⟨.xorWwithF, f, dest⟩ =>
      execByteOp s f dest (fun x st =>
        let ret := st.w ^^^ x
        (ret, statusSet st flagZ (ret == 0)))
  | .bitOriented ⟨.bitClearF, b, f⟩ => do
      let mask := (1 <<< b) % 256
      let c <- registerAt s f
      let s1 <- cellWrite s c (cellRead s c &&& (mask ^^^ 0xFF))
      some ({ s1 with pc := s1.pc + 2 }, 1)
  | .bitOriented ⟨.bitSetF, b, f⟩ => do
      let mask := (1 <<< b) % 256
      let c <- registerAt s f
      let s1 <- cellWrite s c (cellRead s c ||| mask)
      some ({ s1 with pc := s1.pc + 2 }, 1)
  | .bitOriented ⟨.skipIfFBitClear, b, f⟩ => do
      let mask := (1 <<< b) % 256
      let c <- registerAt s f
      let skip := cellRead s c &&& mask == 0
      some ({ s with pc := s.pc + (if skip then 4 else 2) },
            if skip then 2 else 1)
  | .bitOriented ⟨.skipIfFBitSet, b, f⟩ => do
      let mask := (1 <<< b) % 256
      let c <- registerAt s f
      let skip := cellRead s c &&& mask != 0
      some ({ s with pc := s.pc + (if skip then 4 else 2) },
            if skip then 2 else 1)
  | .literalOriented ⟨.subtractWFromLiteral, k⟩ =>
      let a := k
      let b := ((s.w ^^^ 0xFF) + 1) % 256
      let res := (k + b) % 256
      -- NOTE: the source sets Z from `self.w == 0`, before `self.w = res`.
      let s1 := statusSet s flagZ (s.w == 0)
      let s2 := statusSet s1 flagC (decide (256 <= k + b))
      let s3 := statusSet s2 flagDC (dc a b)
      let s4 := { s3 with w := res }
      some ({ s4 with pc := s4.pc + 2 }, 1)
  | .literalOriented ⟨.xorLiteralWithW, k⟩ =>
      let s1 := { s with w := s.w ^^^ k }
      let s2 := statusSet s1 flagZ (s1.w == 0)
      some ({ s2 with pc := s2.pc + 2 }, 1)
  | .literalOriented ⟨.orLiteralWithW, k⟩ =>
      let s1 := { s with w := s.w ||| k }
      let s2 := statusSet s1 flagZ (s1.w == 0)
      some ({ s2 with pc := s2.pc + 2 }, 1)
  | .literalOriented ⟨.moveLiteralToW, k⟩ =>
      let s1 := { s with w := k }
      some ({ s1 with pc := s1.pc + 2 }, 1)
  | .literalOriented ⟨.addLiteralToW, k⟩ =>
      let s1 := { s with w := (s.w + k) % 256 }
      some ({ s1 with pc := s1.pc + 2 }, 1)
  | .literalOriented ⟨.andLiteralWithW, k⟩ =>
      let s1 := { s with w := s.w &&& k }
      some ({ s1 with pc := s1.pc + 2 }, 1)
  | .literalOriented ⟨.returnWithLiteralInW, k⟩ =>
      let s1 := { s with w := k }
      match s1.callStack with
      | [] => none
      | top :: rest => some ({ s1 with pc := top, callStack := rest }, 2)
  | .control .clearWatchDogTimer => none
  | .control .returnFromInterrupt => none
  | .control .sleep => none
  | .control (.clearF f) => do
      let c <- registerAt s f
      let s1 <- cellWrite s c 0
      let s2 := statusSet s1 flagZ true
      some ({ s2 with pc := s2.pc + 2 }, 1)
  | .control .clearW =>
      let s1 := { s with w := 0 }
      let s2 := statusSet s1 flagZ true
      some ({ s2 with pc := s2.pc + 2 }, 1)
  | .control (.moveWtoF f) => do
      let c <- registerAt s f
      let s1 <- cellWrite s c s.w
      some ({ s1 with pc := s1.pc + 2 }, 1)
  | .control (.goto a) =>
      let pc2 := (a * 2) ||| ((s.sfr SfrName.pclath &&& 0x18) <<< 8)
      some ({ s with pc := pc2 }, 2)
  | .control (.call a) =>
      if s.callStack.length = 8 then none
      else
        let s1 := { s with callStack := (s.pc + 2) :: s.callStack }
        let pc2 := (a * 2) ||| ((s1.sfr SfrName.pclath &&& 0x18) <<< 8)
        some ({ s1 with pc := pc2 }, 2)
  | .control .ret =>
      match s.callStack with
      | [] => none
      | top :: rest => some ({ s with pc := top, callStack := rest }, 2)
  | .control .noop => some ({ s with pc := s.pc + 2 }, 1)

/-- `P16F88::step`: fetch the little-endian word at PC (indexing panics,
i.e. `none`, when PC+1 is outside the 7168-byte flash), decode (fatal on
decode miss), execute. -/
def step (s : VMState) : Option (VMState × Nat) :=
  if s.pc + 1 < 7168 then
    let a := s.flash s.pc
    let b := s.flash (s.pc + 1)
    match instructionFromCode ((b <<< 8) ||| a) with
    | none => none
    | some i => exec s i
  else none

/-- States reachable from `s0` by successful (non-fatal) steps. -/
inductive Reaches (s0 : VMState) : VMState -> Prop where
  | refl : Reaches s0 s0
  | next {t u : VMState} {c : Nat} :
      Reaches s0 t -> step t = some (u, c) -> Reaches s0 u

/-- `at(f).read()`: resolve and read a file register. -/
def readReg (s : VMState) (f : Nat) : Option Nat :=
  (registerAt s f).map (cellRead s)

/-- `at(f).write(v)`: resolve and write a file register. -/
def writeReg (s : VMState) (f : Nat) (v : Nat) : Option VMState :=
  (registerAt s f).bind (fun c => cellWrite s c v)

/-- Cells whose `write` never panics (everything except the
`unimpl`-stub SFRs). -/
def writableCell : Cell -> Bool
  | .sfr n => !unimplKind n
  | .gpr _ => true

/-! ### Concrete test fixtures -/

/-- All-zero flash image. -/
def zeroFlash : Nat -> Nat := fun _ => 0

/-- The reset state over all-zero flash. -/
def sInit : VMState := initialState zeroFlash

/-- Reset state with W = 3 and GPR 0 (file address 0x20, bank 0) = 1. -/
def sGpr1 : VMState :=
  { sInit with w := 3, gpr := fun i => if i = 0 then 1 else 0 }

/-- Reset state with PCLATH = 0x18. -/
def sPclath18 : VMState :=
  { sInit with sfr := fun n => if n = SfrName.pclath then 0x18 else sfrInit n }

/-- Reset state with a full call stack (depth 8). -/
def sStack8 : VMState :=
  { sInit with callStack := [2, 2, 2, 2, 2, 2, 2, 2] }

/-- The value stored at an instruction destination: W, or the resolved
file cell. -/
def destValue (s : VMState) (c : Cell) : Destination -> Nat
  | .w => s.w
  | .f => cellRead s c

/-! ### General lemmas about the register file -/

theorem cellWrite_writable (s : VMState) (c : Cell) (v : Nat)
    (h : writableCell c = true) : ∃ s1, cellWrite s c v = some s1 := by
  cases c with
  | sfr n =>
      simp only [writableCell, Bool.not_eq_true'] at h
      refine ⟨{ s with sfr := fun m => if m = n then v else s.sfr m }, ?_⟩
      simp [cellWrite, h]
  | gpr i => exact ⟨_, rfl⟩

theorem writable_of_read_pos {s : VMState} {c : Cell}
    (h : cellRead s c ≠ 0) : writableCell c = true := by
  cases c with
  | sfr n =>
      by_cases hu : unimplKind n = true
      · exact absurd (by simp [cellRead, hu]) h
      · simp [writableCell, hu]
  | gpr i => rfl

theorem cellWrite_frame {s s1 : VMState} {c : Cell} {v : Nat}
    (h : cellWrite s c v = some s1) :
    s1.pc = s.pc ∧ s1.callStack = s.callStack ∧ s1.w = s.w ∧
    s1.flash = s.flash := by
  cases c with
  | sfr n =>
      simp only [cellWrite] at h
      split at h
      · exact absurd h (by simp)
      · cases Option.some.inj h
        exact ⟨rfl, rfl, rfl, rfl⟩
  | gpr i =>
      cases Option.some.inj h
      exact ⟨rfl, rfl, rfl, rfl⟩

theorem cellRead_after_write {s s1 : VMState} {c : Cell} {v : Nat}
    (h : cellWrite s c v = some s1) : cellRead s1 c = v := by
  cases c with
  | sfr n =>
      simp only [cellWrite] at h
      split at h
      · exact absurd h (by simp)
      · next hu =>
          cases Option.some.inj h
          simp [cellRead, hu]
  | gpr i =>
      cases Option.some.inj h
      simp [cellRead]

theorem cellRead_pc_irrel (s : VMState) (pc : Nat) (c : Cell) :
    cellRead { s with pc := pc } c = cellRead s c := by
  cases c <;> rfl

/-! ### Claim theorems -/

/-- C1.  The claim says SubtractWfromF stores v − W (mod 256) computed as
v + (¬W+1), with C the carry-out and DC the bit-3 carry of that add form.
The code instead computes `self.w.overflowing_sub(v)`, i.e. W − v.  At
W = 3, v = 1 (file 0x20, bank 0, dest = F) the code stores 2 with DC set
and C clear, while the claim demands 254 with DC clear and C clear
(the add form 1 + (¬3+1) = 254 has no carry at bit 3 or bit 7). -/
theorem c1_subtractWfromF_code_bug :
    (exec sGpr1 (.byteOriented ⟨.subtractWfromF, 0x20, .f⟩)).map
      (fun p => (p.1.gpr 0, statusContains p.1 flagDC, statusContains p.1 flagC))
      = some (2, true, false) := by
  rfl

/-- C2.  The claim says DecrementF stores v − 1 (wrapping) and sets Z iff
that is 0.  The source arm computes `x.wrapping_add(1)`: at v = 1 it
stores 2 and leaves Z clear, while the claim demands 0 with Z set. -/
theorem c2_decrementF_code_bug :
    (exec sGpr1 (.byteOriented ⟨.decrementF, 0x20, .f⟩)).map
      (fun p => (p.1.gpr 0, statusContains p.1 flagZ))
      = some (2, false) := by
  rfl

/-- C3.  The claim says SubtractWFromLiteral sets Z iff the result
k − W equals 0.  The source sets Z from `self.w == 0` before the
assignment: at W = 1, k = 1 the result is 0 but Z stays clear. -/
theorem c3_subtractWFromLiteral_code_bug :
    (exec { sInit with w := 1 } (.literalOriented ⟨.subtractWFromLiteral, 1⟩)).map
      (fun p => (p.1.w, statusContains p.1 flagZ))
      = some (0, false) := by
  rfl

/-- C4 counterexample.  With PCLATH = 0x18, Goto addr = 0x000 does not set
the byte program counter to 0x3000: the code computes
`(0 * 2) | ((0x18 & 0x18) << 8) = 0x1800`. -/
theorem c4_goto_counterexample :
    (exec sPclath18 (.control (.goto 0))).map (fun p => p.1.pc) ≠ some 0x3000 := by
  decide

/-- C4 amended.  If PCLATH reads 0x18, executing Goto with addr = 0x000
sets the byte program counter to 0x1800. -/
theorem c4_goto_pclath_amended (s : VMState) (h : s.sfr SfrName.pclath = 0x18) :
    (exec s (.control (.goto 0))).map (fun p => p.1.pc) = some 0x1800 := by
  simp only [exec, h, Option.map_some]
  rfl

/-- C4 amended, witness at the concrete PCLATH = 0x18 state. -/
theorem c4_goto_pclath_amended_witness :
    (exec sPclath18 (.control (.goto 0))).map (fun p => p.1.pc) = some 0x1800 :=
  c4_goto_pclath_amended sPclath18 rfl

/-- In every state, resolving an address in the common window 0x70-0x7F
yields the aliased GPR cell 80 + (f - 0x70), whatever the bank bits of
STATUS hold. -/
theorem commonWindow_resolve (s : VMState) (f : Nat)
    (h1 : 0x70 <= f) (h2 : f <= 0x7F) :
    registerAt s f = some (.gpr (80 + (f - 0x70))) := by
  have hb : bankOf s < 4 := by
    unfold bankOf
    rw [Nat.shiftRight_eq_div_pow]
    exact lt_of_le_of_lt (Nat.div_le_div_right Nat.and_le_right) (by norm_num)
  unfold registerAt
  rw [if_neg (by omega), if_neg (by omega)]
  have hb3 : bankOf s ≤ 3 := by omega
  congr 1
  interval_cases h : (bankOf s) <;> interval_cases f <;> rfl

/-- C7.  Every file address in the common window 0x70-0x7F resolves, in
every state (hence under every bank), to the single GPR cell with index
80 + (f - 0x70); consequently a value written there is read back
identically after STATUS (and with it the bank) is replaced by any other
byte. -/
theorem c7_common_access_window :
    (∀ (s : VMState) (f : Nat), 0x70 <= f -> f <= 0x7F ->
        registerAt s f = some (.gpr (80 + (f - 0x70)))) ∧
    (∀ (s s1 : VMState) (f v st2 : Nat), 0x70 <= f -> f <= 0x7F ->
        writeReg s f v = some s1 ->
        readReg { s1 with
            sfr := fun n => if n = SfrName.status then st2 else s1.sfr n } f
          = some v) := by
  refine ⟨commonWindow_resolve, ?_⟩
  intro s s1 f v st2 h1 h2 hw
  unfold writeReg at hw
  rw [commonWindow_resolve s f h1 h2] at hw
  simp only [Option.some_bind] at hw
  unfold cellWrite at hw
  simp only [Option.some.injEq] at hw
  unfold readReg
  rw [commonWindow_resolve _ f h1 h2]
  simp only [Option.map_some']
  congr 1
  unfold cellRead
  rw [← hw]
  simp

/-- The state obtained by writing 0xAB at file address 0x70 from reset. -/
def sWrittenC7 : VMState :=
  { sInit with gpr := fun j => if j = 80 then 0xAB else sInit.gpr j }

/-- C7 witness: write 0xAB at 0x70 under bank 0, flip STATUS to 0x60
(bank 3), read the same value back. -/
theorem c7_common_access_window_witness :
    registerAt sInit 0x70 = some (.gpr (80 + (0x70 - 0x70))) ∧
    readReg { sWrittenC7 with
        sfr := fun n => if n = SfrName.status then 0x60 else sWrittenC7.sfr n } 0x70
      = some 0xAB :=
  ⟨c7_common_access_window.1 sInit 0x70 (by decide) (by decide),
   c7_common_access_window.2 sInit sWrittenC7 0x70 0xAB 0x60
     (by decide) (by decide) rfl⟩

/-- C10.  Executing SkipIfFBitClear, SkipIfFBitSet or Goto changes only
the program counter: W, the call stack, every GPR cell, every SFR
(STATUS with its C/DC/Z bits, PCLATH, and the rest) and the flash image
are unchanged. -/
theorem c10_frame_skip_goto (s s1 : VMState) (cy : Nat) (i : Instruction)
    (hi : (∃ b f, i = .bitOriented ⟨.skipIfFBitClear, b, f⟩) ∨
          (∃ b f, i = .bitOriented ⟨.skipIfFBitSet, b, f⟩) ∨
          (∃ a, i = .control (.goto a)))
    (h : exec s i = some (s1, cy)) :
    s1.w = s.w ∧ s1.callStack = s.callStack ∧ s1.gpr = s.gpr ∧
    s1.sfr = s.sfr ∧ s1.flash = s.flash := by
  rcases hi with ⟨b, f, rfl⟩ | ⟨b, f, rfl⟩ | ⟨a, rfl⟩ <;>
    simp only [exec] at h
  · cases hr : registerAt s f <;> rw [hr] at h <;>
      simp only [Option.pure_def, Option.bind_eq_bind, Option.some_bind] at h
    · exact absurd h (by simp)
    · simp only [Option.some.injEq, Prod.mk.injEq] at h
      obtain ⟨h1, -⟩ := h
      subst h1
      exact ⟨rfl, rfl, rfl, rfl, rfl⟩
  · cases hr : registerAt s f <;> rw [hr] at h <;>
      simp only [Option.pure_def, Option.bind_eq_bind, Option.some_bind] at h
    · exact absurd h (by simp)
    · simp only [Option.some.injEq, Prod.mk.injEq] at h
      obtain ⟨h1, -⟩ := h
      subst h1
      exact ⟨rfl, rfl, rfl, rfl, rfl⟩
  · simp only [Option.some.injEq, Prod.mk.injEq] at h
    obtain ⟨h1, -⟩ := h
    subst h1
    exact ⟨rfl, rfl, rfl, rfl, rfl⟩

/-- C6.  Call pushes PC + 2 (fatal exactly at stack depth 8) and jumps to
the PCLATH-composed target; an immediately following Return pops that
entry and resumes at the call site plus 2; Return on an empty stack is
fatal; and the concrete scenario Call addr = 0x010 with PCLATH = 0 from
PC = 0 leaves stack [0x0002] and PC 0x0020.  Depth below 8 succeeding and
depth 8 failing together give that a chain of 8 nested Calls succeeds and
the 9th is fatal. -/
theorem c6_call_return :
    (∀ (s : VMState) (a : Nat), s.callStack.length < 8 ->
        exec s (.control (.call a)) =
          some ({ s with callStack := (s.pc + 2) :: s.callStack,
                         pc := (a * 2) |||
                               ((s.sfr SfrName.pclath &&& 0x18) <<< 8) }, 2)) ∧
    (∀ (s s1 : VMState) (a cy : Nat),
        exec s (.control (.call a)) = some (s1, cy) ->
        exec s1 (.control .ret) =
          some ({ s1 with pc := s.pc + 2, callStack := s.callStack }, 2)) ∧
    (∀ (s : VMState) (a : Nat), s.callStack.length = 8 ->
        exec s (.control (.call a)) = none) ∧
    (∀ s : VMState, s.callStack = [] -> exec s (.control .ret) = none) ∧
    exec sInit (.control (.call 0x10)) =
      some ({ sInit with callStack := [0x0002], pc := 0x0020 }, 2) := by
  refine ⟨?_, ?_, ?_, ?_, ?_⟩
  · intro s a hlen
    simp only [exec]
    rw [if_neg (by omega)]
  · intro s s1 a cy h
    simp only [exec] at h
    by_cases hlen : s.callStack.length = 8
    · rw [if_pos hlen] at h
      exact absurd h (by simp)
    · rw [if_neg hlen] at h
      simp only [Option.some.injEq, Prod.mk.injEq] at h
      obtain ⟨h1, -⟩ := h
      subst h1
      rfl
  · intro s a hlen
    simp only [exec]
    rw [if_pos hlen]
  · intro s h
    simp only [exec, h]
  · rfl

/-- C6 witness: a Call with room on the stack, the Return after the
concrete Call, a Call at depth 8, and a Return on the empty stack. -/
theorem c6_call_return_witness :
    exec sInit (.control (.call 5)) =
      some ({ sInit with callStack := (sInit.pc + 2) :: sInit.callStack,
                         pc := (5 * 2) |||
                               ((sInit.sfr SfrName.pclath &&& 0x18) <<< 8) }, 2) ∧
    exec { sInit with callStack := [0x0002], pc := 0x0020 } (.control .ret) =
      some ({ { sInit with callStack := [0x0002], pc := 0x0020 } with
              pc := sInit.pc + 2, callStack := sInit.callStack }, 2) ∧
    exec sStack8 (.control (.call 0)) = none ∧
    exec sInit (.control .ret) = none :=
  ⟨c6_call_return.1 sInit 5 (by decide),
   c6_call_return.2.1 sInit { sInit with callStack := [0x0002], pc := 0x0020 }
     0x10 2 rfl,
   c6_call_return.2.2.1 sStack8 0 (by decide),
   c6_call_return.2.2.2.1 sInit rfl⟩

theorem decfsz_skip (s : VMState) (f : Nat) (dest : Destination) (c : Cell)
    (hr : registerAt s f = some c) (hv : cellRead s c = 1) :
    (exec s (.byteOriented ⟨.decrementFSkipIfZ, f, dest⟩)).map
      (fun p => (destValue p.1 c dest, p.1.pc, p.2)) = some (0, s.pc + 4, 2) := by
  cases dest with
  | w => simp [exec, hr, hv, destValue]
  | f =>
      obtain ⟨s1, hs1⟩ := cellWrite_writable s c ((cellRead s c + 255) % 256)
        (writable_of_read_pos (by rw [hv]; exact one_ne_zero))
      rw [hv] at hs1
      norm_num at hs1
      simp [exec, hr, hv, hs1, destValue, cellRead_pc_irrel,
        cellRead_after_write hs1, (cellWrite_frame hs1).1]

theorem decfsz_noskip (s : VMState) (f : Nat) (dest : Destination) (c : Cell)
    (hr : registerAt s f = some c) (hv : cellRead s c < 256)
    (hv1 : cellRead s c ≠ 1)
    (hw : dest = .f -> writableCell c = true) :
    (exec s (.byteOriented ⟨.decrementFSkipIfZ, f, dest⟩)).map
      (fun p => (p.1.pc, p.2)) = some (s.pc + 2, 1) := by
  have hret : (cellRead s c + 255) % 256 ≠ 0 := by omega
  cases dest with
  | w => simp [exec, hr, hret]
  | f =>
      obtain ⟨s1, hs1⟩ :=
        cellWrite_writable s c ((cellRead s c + 255) % 256) (hw rfl)
      simp [exec, hr, hs1, hret, (cellWrite_frame hs1).1]

theorem incfsz_skip (s : VMState) (f : Nat) (dest : Destination) (c : Cell)
    (hr : registerAt s f = some c) (hv : cellRead s c = 0xFF) :
    (exec s (.byteOriented ⟨.incrementFSkipIfZ, f, dest⟩)).map
      (fun p => (destValue p.1 c dest, p.1.pc, p.2)) = some (0, s.pc + 4, 2) := by
  cases dest with
  | w => simp [exec, hr, hv, destValue]
  | f =>
      obtain ⟨s1, hs1⟩ := cellWrite_writable s c ((cellRead s c + 1) % 256)
        (writable_of_read_pos (by rw [hv]; norm_num))
      rw [hv] at hs1
      norm_num at hs1
      simp [exec, hr, hv, hs1, destValue, cellRead_pc_irrel,
        cellRead_after_write hs1, (cellWrite_frame hs1).1]

theorem incfsz_noskip (s : VMState) (f : Nat) (dest : Destination) (c : Cell)
    (hr : registerAt s f = some c) (hv : cellRead s c < 256)
    (hv1 : cellRead s c ≠ 0xFF)
    (hw : dest = .f -> writableCell c = true) :
    (exec s (.byteOriented ⟨.incrementFSkipIfZ, f, dest⟩)).map
      (fun p => (p.1.pc, p.2)) = some (s.pc + 2, 1) := by
  have hret : (cellRead s c + 1) % 256 ≠ 0 := by omega
  cases dest with
  | w => simp [exec, hr, hret]
  | f =>
      obtain ⟨s1, hs1⟩ :=
        cellWrite_writable s c ((cellRead s c + 1) % 256) (hw rfl)
      simp [exec, hr, hs1, hret, (cellWrite_frame hs1).1]

theorem btfsc_cases (s : VMState) (f b : Nat) (c : Cell) (hb : b ≤ 7)
    (hr : registerAt s f = some c) :
    (cellRead s c &&& (1 <<< b) = 0 ->
        exec s (.bitOriented ⟨.skipIfFBitClear, b, f⟩) =
          some ({ s with pc := s.pc + 4 }, 2)) ∧
    (cellRead s c &&& (1 <<< b) ≠ 0 ->
        exec s (.bitOriented ⟨.skipIfFBitClear, b, f⟩) =
          some ({ s with pc := s.pc + 2 }, 1)) := by
  have hm : (1 <<< b) % 256 = 1 <<< b := by
    apply Nat.mod_eq_of_lt
    rw [Nat.shiftLeft_eq, one_mul]
    calc 2 ^ b ≤ 2 ^ 7 := Nat.pow_le_pow_right (by norm_num) hb
      _ < 256 := by norm_num
  constructor <;> intro h <;> simp [exec, hr, hm, h]

theorem btfss_cases (s : VMState) (f b : Nat) (c : Cell) (hb : b ≤ 7)
    (hr : registerAt s f = some c) :
    (cellRead s c &&& (1 <<< b) ≠ 0 ->
        exec s (.bitOriented ⟨.skipIfFBitSet, b, f⟩) =
          some ({ s with pc := s.pc + 4 }, 2)) ∧
    (cellRead s c &&& (1 <<< b) = 0 ->
        exec s (.bitOriented ⟨.skipIfFBitSet, b, f⟩) =
          some ({ s with pc := s.pc + 2 }, 1)) := by
  have hm : (1 <<< b) % 256 = 1 <<< b := by
    apply Nat.mod_eq_of_lt
    rw [Nat.shiftLeft_eq, one_mul]
    calc 2 ^ b ≤ 2 ^ 7 := Nat.pow_le_pow_right (by norm_num) hb
      _ < 256 := by norm_num
  constructor <;> intro h <;> simp [exec, hr, hm, h]

/-- C8.  DecrementFSkipIfZ with file value 1 stores 0, advances PC by 4
and takes 2 cycles, and with any other byte value advances PC by 2 in one
cycle; IncrementFSkipIfZ behaves symmetrically at 0xFF; SkipIfFBitClear
and SkipIfFBitSet at every bit position up to 7 advance PC by 4 with 2
cycles when the tested condition holds and PC by 2 with 1 cycle
otherwise.  (Non-skipping writes back through the cell, so the
destination-F cases assume the resolved cell is writable.) -/
theorem c8_skip_semantics :
    (∀ (s : VMState) (f : Nat) (dest : Destination) (c : Cell),
        registerAt s f = some c -> cellRead s c = 1 ->
        (exec s (.byteOriented ⟨.decrementFSkipIfZ, f, dest⟩)).map
          (fun p => (destValue p.1 c dest, p.1.pc, p.2)) =
          some (0, s.pc + 4, 2)) ∧
    (∀ (s : VMState) (f : Nat) (dest : Destination) (c : Cell),
        registerAt s f = some c -> cellRead s c < 256 ->
        cellRead s c ≠ 1 -> (dest = .f -> writableCell c = true) ->
        (exec s (.byteOriented ⟨.decrementFSkipIfZ, f, dest⟩)).map
          (fun p => (p.1.pc, p.2)) = some (s.pc + 2, 1)) ∧
    (∀ (s : VMState) (f : Nat) (dest : Destination) (c : Cell),
        registerAt s f = some c -> cellRead s c = 0xFF ->
        (exec s (.byteOriented ⟨.incrementFSkipIfZ, f, dest⟩)).map
          (fun p => (destValue p.1 c dest, p.1.pc, p.2)) =
          some (0, s.pc + 4, 2)) ∧
    (∀ (s : VMState) (f : Nat) (dest : Destination) (c : Cell),
        registerAt s f = some c -> cellRead s c < 256 ->
        cellRead s c ≠ 0xFF -> (dest = .f -> writableCell c = true) ->
        (exec s (.byteOriented ⟨.incrementFSkipIfZ, f, dest⟩)).map
          (fun p => (p.1.pc, p.2)) = some (s.pc + 2, 1)) ∧
    (∀ (s : VMState) (f b : Nat) (c : Cell), b ≤ 7 ->
        registerAt s f = some c ->
        (cellRead s c &&& (1 <<< b) = 0 ->
            exec s (.bitOriented ⟨.skipIfFBitClear, b, f⟩) =
              some ({ s with pc := s.pc + 4 }, 2)) ∧
        (cellRead s c &&& (1 <<< b) ≠ 0 ->
            exec s (.bitOriented ⟨.skipIfFBitClear, b, f⟩) =
              some ({ s with pc := s.pc + 2 }, 1))) ∧
    (∀ (s : VMState) (f b : Nat) (c : Cell), b ≤ 7 ->
        registerAt s f = some c ->
        (cellRead s c &&& (1 <<< b) ≠ 0 ->
            exec s (.bitOriented ⟨.skipIfFBitSet, b, f⟩) =
              some ({ s with pc := s.pc + 4 }, 2)) ∧
        (cellRead s c &&& (1 <<< b) = 0 ->
            exec s (.bitOriented ⟨.skipIfFBitSet, b, f⟩) =
              some ({ s with pc := s.pc + 2 }, 1))) :=
  ⟨decfsz_skip, decfsz_noskip, incfsz_skip, incfsz_noskip,
   btfsc_cases, btfss_cases⟩

/-- Reset state with GPR 0 = 0xFF. -/
def sGprFF : VMState :=
  { sInit with gpr := fun i => if i = 0 then 0xFF else 0 }

/-- C8 witness: each conjunct at a concrete state, file address 0x20
(bank 0, GPR 0). -/
theorem c8_skip_semantics_witness :
    (exec sGpr1 (.byteOriented ⟨.decrementFSkipIfZ, 0x20, .w⟩)).map
      (fun p => (destValue p.1 (.gpr 0) .w, p.1.pc, p.2)) =
      some (0, sGpr1.pc + 4, 2) ∧
    (exec sInit (.byteOriented ⟨.decrementFSkipIfZ, 0x20, .f⟩)).map
      (fun p => (p.1.pc, p.2)) = some (sInit.pc + 2, 1) ∧
    (exec sGprFF (.byteOriented ⟨.incrementFSkipIfZ, 0x20, .w⟩)).map
      (fun p => (destValue p.1 (.gpr 0) .w, p.1.pc, p.2)) =
      some (0, sGprFF.pc + 4, 2) ∧
    (exec sInit (.byteOriented ⟨.incrementFSkipIfZ, 0x20, .f⟩)).map
      (fun p => (p.1.pc, p.2)) = some (sInit.pc + 2, 1) ∧
    exec sInit (.bitOriented ⟨.skipIfFBitClear, 3, 0x20⟩) =
      some ({ sInit with pc := sInit.pc + 4 }, 2) ∧
    exec sGpr1 (.bitOriented ⟨.skipIfFBitSet, 0, 0x20⟩) =
      some ({ sGpr1 with pc := sGpr1.pc + 4 }, 2) :=
  ⟨c8_skip_semantics.1 sGpr1 0x20 .w (.gpr 0) rfl rfl,
   c8_skip_semantics.2.1 sInit 0x20 .f (.gpr 0) rfl (by decide) (by decide)
     (fun _ => rfl),
   c8_skip_semantics.2.2.1 sGprFF 0x20 .w (.gpr 0) rfl rfl,
   c8_skip_semantics.2.2.2.1 sInit 0x20 .f (.gpr 0) rfl (by decide) (by decide)
     (fun _ => rfl),
   (c8_skip_semantics.2.2.2.2.1 sInit 0x20 3 (.gpr 0) (by decide) rfl).1
     (by decide),
   (c8_skip_semantics.2.2.2.2.2 sGpr1 0x20 0 (.gpr 0) (by decide) rfl).1
     (by decide)⟩

/-- Any word whose bits 13:11 read 101 decodes to Goto with the low 11
bits as target: the byte-, bit- and literal-oriented recognizers and the
control arms ahead of Goto all reject it. -/
theorem decode_goto (w : Nat) (h2 : w &&& 0x3800 = 0x2800) :
    instructionFromCode w = some (.control (.goto (w &&& 0x7ff))) := by
  have hkill : ∀ (m v : Nat), m &&& 0x3800 = 0x3800 -> v &&& 0x3800 ≠ 0x2800 ->
      w &&& m ≠ v := by
    intro m v hm hv h
    apply hv
    rw [← h, Nat.and_assoc, hm, h2]
  have hbyte : byteOrientedFromCode w = none := by
    unfold byteOrientedFromCode
    rw [if_neg (hkill _ _ (by decide) (by decide)),
        if_neg (hkill _ _ (by decide) (by decide)),
        if_neg (hkill _ _ (by decide) (by decide)),
        if_neg (hkill _ _ (by decide) (by decide)),
        if_neg (hkill _ _ (by decide) (by decide)),
        if_neg (hkill _ _ (by decide) (by decide)),
        if_neg (hkill _ _ (by decide) (by decide)),
        if_neg (hkill _ _ (by decide) (by decide)),
        if_neg (hkill _ _ (by decide) (by decide)),
        if_neg (hkill _ _ (by decide) (by decide)),
        if_neg (hkill _ _ (by decide) (by decide)),
        if_neg (hkill _ _ (by decide) (by decide)),
        if_neg (hkill _ _ (by decide) (by decide)),
        if_neg (hkill _ _ (by decide) (by decide))]
  have hbit : bitOrientedFromCode w = none := by
    unfold bitOrientedFromCode
    rw [if_neg (hkill _ _ (by decide) (by decide)),
        if_neg (hkill _ _ (by decide) (by decide)),
        if_neg (hkill _ _ (by decide) (by decide)),
        if_neg (hkill _ _ (by decide) (by decide))]
  have hlit : literalOrientedFromCode w = none := by
    unfold literalOrientedFromCode
    rw [if_neg (hkill _ _ (by decide) (by decide)),
        if_neg (hkill _ _ (by decide) (by decide)),
        if_neg (hkill _ _ (by decide) (by decide)),
        if_neg (hkill _ _ (by decide) (by decide)),
        if_neg (hkill _ _ (by decide) (by decide)),
        if_neg (hkill _ _ (by decide) (by decide)),
        if_neg (hkill _ _ (by decide) (by decide))]
  have hexact : ∀ v : Nat, v &&& 0x3800 ≠ 0x2800 -> w ≠ v := by
    intro v hv h
    subst h
    exact hv h2
  have hctl : controlFromCode w = some (.goto (w &&& 0x7ff)) := by
    unfold controlFromCode
    rw [if_neg (hexact _ (by decide)),
        if_neg (hexact _ (by decide)),
        if_neg (hexact _ (by decide)),
        if_neg (hexact _ (by decide)),
        if_neg (hkill _ _ (by decide) (by decide)),
        if_neg (hkill _ _ (by decide) (by decide)),
        if_pos h2]
  rw [instructionFromCode, hbyte, hbit, hlit, hctl]
  rfl


/-- C5.  Every 14-bit word w with (w AND 0x3800) = 0x2800 decodes to Goto
with addr = w AND 0x07FF (no earlier pattern claims it), and executing
that Goto sets PC = (addr * 2) OR ((PCLATH AND 0x18) << 8) and consumes
2 cycles. -/
theorem c5_goto_decode_exec (w : Nat) (s : VMState)
    (_h14 : w < 16384) (hm : w &&& 0x3800 = 0x2800) :
    instructionFromCode w = some (.control (.goto (w &&& 0x7ff))) ∧
    exec s (.control (.goto (w &&& 0x7ff))) =
      some ({ s with pc := ((w &&& 0x7ff) * 2) |||
                           ((s.sfr SfrName.pclath &&& 0x18) <<< 8) }, 2) :=
  ⟨decode_goto w hm, rfl⟩

/-- C5 witness at the word 0x2800 (Goto 0) and the reset state. -/
theorem c5_goto_decode_exec_witness :
    instructionFromCode 0x2800 = some (.control (.goto (0x2800 &&& 0x7ff))) ∧
    exec sInit (.control (.goto (0x2800 &&& 0x7ff))) =
      some ({ sInit with pc := ((0x2800 &&& 0x7ff) * 2) |||
                              ((sInit.sfr SfrName.pclath &&& 0x18) <<< 8) }, 2) :=
  c5_goto_decode_exec 0x2800 sInit (by decide) (by decide)

/-- C10 witness: Goto addr = 0 from reset changes only the PC. -/
theorem c10_frame_skip_goto_witness :
    ({ sInit with pc := 0 } : VMState).w = sInit.w ∧
    ({ sInit with pc := 0 } : VMState).callStack = sInit.callStack ∧
    ({ sInit with pc := 0 } : VMState).gpr = sInit.gpr ∧
    ({ sInit with pc := 0 } : VMState).sfr = sInit.sfr ∧
    ({ sInit with pc := 0 } : VMState).flash = sInit.flash :=
  c10_frame_skip_goto sInit { sInit with pc := 0 } 2 (.control (.goto 0))
    (Or.inr (Or.inr ⟨0, rfl⟩)) rfl

/-! ### The PC invariant (C9) -/

/-- The program-counter invariant: PC even and below 14336, and the same
for every entry of the call stack. -/
def PCInv (s : VMState) : Prop :=
  s.pc % 2 = 0 ∧ s.pc < 14336 ∧ ∀ x ∈ s.callStack, x % 2 = 0 ∧ x < 14336

/-- Well-formedness the decoder guarantees: Goto and Call targets are
11-bit. -/
def InstWF : Instruction -> Prop
  | .control (.goto a) => a < 2048
  | .control (.call a) => a < 2048
  | _ => True

set_option maxHeartbeats 1600000 in
theorem controlFromCode_wf {w : Nat} {ci : ControlInstruction}
    (h : controlFromCode w = some ci) : InstWF (.control ci) := by
  have hand : w &&& 0x7ff < 2048 :=
    lt_of_le_of_lt Nat.and_le_right (by norm_num)
  unfold controlFromCode at h
  split_ifs at h
  all_goals first
    | exact Option.noConfusion h
    | (cases Option.some.inj h
       trivial)

theorem decode_wf {w : Nat} {i : Instruction}
    (h : instructionFromCode w = some i) : InstWF i := by
  unfold instructionFromCode at h
  cases hb : byteOrientedFromCode w <;> rw [hb] at h
  case some x =>
    simp only [Option.map_some', Option.or_some] at h
    cases Option.some.inj h
    trivial
  case none =>
    simp only [Option.map_none', Option.none_or] at h
    cases hb2 : bitOrientedFromCode w <;> rw [hb2] at h
    case some x =>
      simp only [Option.map_some', Option.or_some] at h
      cases Option.some.inj h
      trivial
    case none =>
      simp only [Option.map_none', Option.none_or] at h
      cases hb3 : literalOrientedFromCode w <;> rw [hb3] at h
      case some x =>
        simp only [Option.map_some', Option.or_some] at h
        cases Option.some.inj h
        trivial
      case none =>
        simp only [Option.map_none', Option.none_or] at h
        cases hb4 : controlFromCode w <;> rw [hb4] at h
        case none => exact Option.noConfusion h
        case some ci =>
          simp only [Option.map_some'] at h
          cases Option.some.inj h
          exact controlFromCode_wf hb4

theorem execByteOp_frame {s s1 : VMState} {f : Nat} {dest : Destination}
    {cy : Nat} {op : Nat -> VMState -> Nat × VMState}
    (hop : ∀ r st, (op r st).2.pc = st.pc ∧ (op r st).2.callStack = st.callStack)
    (h : execByteOp s f dest op = some (s1, cy)) :
    s1.pc = s.pc + 2 ∧ s1.callStack = s.callStack := by
  cases dest with
  | w =>
      simp only [execByteOp] at h
      cases hr : registerAt s f <;> rw [hr] at h <;>
        simp only [Option.pure_def, Option.bind_eq_bind, Option.none_bind,
          Option.some_bind] at h
      · exact Option.noConfusion h
      · next c =>
          simp only [Option.some.injEq, Prod.mk.injEq] at h
          obtain ⟨h1, -⟩ := h
          subst h1
          exact ⟨congrArg (· + 2) (hop (cellRead s c) s).1,
                 (hop (cellRead s c) s).2⟩
  | f =>
      simp only [execByteOp] at h
      cases hr : registerAt s f <;> rw [hr] at h <;>
        simp only [Option.pure_def, Option.bind_eq_bind, Option.none_bind,
          Option.some_bind] at h
      · exact Option.noConfusion h
      · next c =>
          cases hr2 : registerAt (op (cellRead s c) s).2 f <;> rw [hr2] at h <;>
            simp only [Option.none_bind, Option.some_bind] at h
          · exact Option.noConfusion h
          · next c2 =>
              cases hw : cellWrite (op (cellRead s c) s).2 c2
                  (op (cellRead s c) s).1 <;> rw [hw] at h <;>
                simp only [Option.none_bind, Option.some_bind] at h
              · exact Option.noConfusion h
              · next s2 =>
                  simp only [Option.some.injEq, Prod.mk.injEq] at h
                  obtain ⟨h1, -⟩ := h
                  subst h1
                  have hf := cellWrite_frame hw
                  have ho := hop (cellRead s c) s
                  refine ⟨?_, ?_⟩
                  · show s2.pc + 2 = s.pc + 2
                    rw [hf.1, ho.1]
                  · show s2.callStack = s.callStack
                    rw [hf.2.1, ho.2]

theorem lor_even {a b : Nat} (ha : a % 2 = 0) (hb : b % 2 = 0) :
    (a ||| b) % 2 = 0 := by
  rw [Nat.mod_two_eq_zero_iff_testBit_zero] at ha hb ⊢
  rw [Nat.testBit_lor, ha, hb]
  rfl

theorem goto_target_inv {a x : Nat} (ha : a < 2048) :
    ((a * 2) ||| ((x &&& 0x18) <<< 8)) % 2 = 0 ∧
    ((a * 2) ||| ((x &&& 0x18) <<< 8)) < 14336 := by
  have h256 : (2 : Nat) ^ 8 = 256 := by norm_num
  have hand : x &&& 0x18 ≤ 0x18 := Nat.and_le_right
  constructor
  · apply lor_even
    · omega
    · rw [Nat.shiftLeft_eq, h256]
      omega
  · have h1 : a * 2 < 2 ^ 13 := by norm_num; omega
    have h2 : (x &&& 0x18) <<< 8 < 2 ^ 13 := by
      rw [Nat.shiftLeft_eq, h256]
      norm_num
      omega
    have h3 := Nat.or_lt_two_pow h1 h2
    norm_num at h3
    omega

theorem exec_pc_inv {t u : VMState} {i : Instruction} {cy : Nat}
    (hwf : InstWF i) (hfetch : t.pc + 1 < 7168)
    (hinv : PCInv t) (h : exec t i = some (u, cy)) : PCInv u := by
  obtain ⟨hev, hlt, hstk⟩ := hinv
  have base : ∀ {v : VMState} {k : Nat}, (k = 2 ∨ k = 4) ->
      v.pc = t.pc + k -> v.callStack = t.callStack -> PCInv v := by
    intro v k hk hpc hcs
    refine ⟨by omega, by omega, ?_⟩
    rw [hcs]
    exact hstk
  have pop : ∀ {v : VMState} (top : Nat) (rest : List Nat),
      t.callStack = top :: rest -> v.pc = top -> v.callStack = rest ->
      PCInv v := by
    intro v top rest hcons hpc hcs
    have htop := hstk top (by rw [hcons]; exact List.mem_cons_self top rest)
    refine ⟨by omega, by omega, ?_⟩
    rw [hcs]
    intro x hx
    exact hstk x (by rw [hcons]; exact List.mem_cons_of_mem top hx)
  cases i with
  | byteOriented bi =>
      obtain ⟨op, f, dest⟩ := bi
      cases op
      case decrementFSkipIfZ =>
        simp only [exec] at h
        cases hr : registerAt t f <;> rw [hr] at h <;>
          simp only [Option.pure_def, Option.bind_eq_bind, Option.none_bind,
            Option.some_bind] at h
        · exact Option.noConfusion h
        · next c =>
            by_cases hsk : ((cellRead t c + 255) % 256 == 0) = true <;>
              simp only [hsk, if_true, if_false, Bool.false_eq_true] at h <;>
              cases dest <;>
                simp only [Option.some_bind] at h
            · simp only [Option.some.injEq, Prod.mk.injEq] at h
              obtain ⟨h1, -⟩ := h
              subst h1
              exact base (Or.inr rfl) rfl rfl
            · cases hw : cellWrite t c ((cellRead t c + 255) % 256) <;>
                rw [hw] at h <;>
                simp only [Option.none_bind, Option.some_bind] at h
              · exact Option.noConfusion h
              · next s2 =>
                  simp only [Option.some.injEq, Prod.mk.injEq] at h
                  obtain ⟨h1, -⟩ := h
                  subst h1
                  have hf := cellWrite_frame hw
                  exact base (Or.inr rfl)
                    (by show s2.pc + 4 = t.pc + 4; rw [hf.1]) hf.2.1
            · simp only [Option.some.injEq, Prod.mk.injEq] at h
              obtain ⟨h1, -⟩ := h
              subst h1
              exact base (Or.inl rfl) rfl rfl
            · cases hw : cellWrite t c ((cellRead t c + 255) % 256) <;>
                rw [hw] at h <;>
                simp only [Option.none_bind, Option.some_bind] at h
              · exact Option.noConfusion h
              · next s2 =>
                  simp only [Option.some.injEq, Prod.mk.injEq] at h
                  obtain ⟨h1, -⟩ := h
                  subst h1
                  have hf := cellWrite_frame hw
                  exact base (Or.inl rfl)
                    (by show s2.pc + 2 = t.pc + 2; rw [hf.1]) hf.2.1
      case incrementFSkipIfZ =>
        simp only [exec] at h
        cases hr : registerAt t f <;> rw [hr] at h <;>
          simp only [Option.pure_def, Option.bind_eq_bind, Option.none_bind,
            Option.some_bind] at h
        · exact Option.noConfusion h
        · next c =>
            by_cases hsk : ((cellRead t c + 1) % 256 == 0) = true <;>
              simp only [hsk, if_true, if_false, Bool.false_eq_true] at h <;>
              cases dest <;>
                simp only [Option.some_bind] at h
            · simp only [Option.some.injEq, Prod.mk.injEq] at h
              obtain ⟨h1, -⟩ := h
              subst h1
              exact base (Or.inr rfl) rfl rfl
            · cases hw : cellWrite t c ((cellRead t c + 1) % 256) <;>
                rw [hw] at h <;>
                simp only [Option.none_bind, Option.some_bind] at h
              · exact Option.noConfusion h
              · next s2 =>
                  simp only [Option.some.injEq, Prod.mk.injEq] at h
                  obtain ⟨h1, -⟩ := h
                  subst h1
                  have hf := cellWrite_frame hw
                  exact base (Or.inr rfl)
                    (by show s2.pc + 4 = t.pc + 4; rw [hf.1]) hf.2.1
            · simp only [Option.some.injEq, Prod.mk.injEq] at h
              obtain ⟨h1, -⟩ := h
              subst h1
              exact base (Or.inl rfl) rfl rfl
            · cases hw : cellWrite t c ((cellRead t c + 1) % 256) <;>
                rw [hw] at h <;>
                simp only [Option.none_bind, Option.some_bind] at h
              · exact Option.noConfusion h
              · next s2 =>
                  simp only [Option.some.injEq, Prod.mk.injEq] at h
                  obtain ⟨h1, -⟩ := h
                  subst h1
                  have hf := cellWrite_frame hw
                  exact base (Or.inl rfl)
                    (by show s2.pc + 2 = t.pc + 2; rw [hf.1]) hf.2.1
      all_goals
        simp only [exec] at h
        have hf := execByteOp_frame (fun r st => ⟨rfl, rfl⟩) h
        exact base (Or.inl rfl) hf.1 hf.2
  | bitOriented bi =>
      obtain ⟨op, b, f⟩ := bi
      cases op
      case bitClearF =>
        simp only [exec] at h
        cases hr : registerAt t f <;> rw [hr] at h <;>
          simp only [Option.pure_def, Option.bind_eq_bind, Option.none_bind,
            Option.some_bind] at h
        · exact Option.noConfusion h
        · next c =>
            cases hw : cellWrite t c (cellRead t c &&& ((1 <<< b) % 256 ^^^ 0xFF)) <;>
              rw [hw] at h <;>
              simp only [Option.none_bind, Option.some_bind] at h
            · exact Option.noConfusion h
            · next s2 =>
                simp only [Option.some.injEq, Prod.mk.injEq] at h
                obtain ⟨h1, -⟩ := h
                subst h1
                have hf := cellWrite_frame hw
                exact base (Or.inl rfl)
                  (by show s2.pc + 2 = t.pc + 2; rw [hf.1]) hf.2.1
      case bitSetF =>
        simp only [exec] at h
        cases hr : registerAt t f <;> rw [hr] at h <;>
          simp only [Option.pure_def, Option.bind_eq_bind, Option.none_bind,
            Option.some_bind] at h
        · exact Option.noConfusion h
        · next c =>
            cases hw : cellWrite t c (cellRead t c ||| (1 <<< b) % 256) <;>
              rw [hw] at h <;>
              simp only [Option.none_bind, Option.some_bind] at h
            · exact Option.noConfusion h
            · next s2 =>
                simp only [Option.some.injEq, Prod.mk.injEq] at h
                obtain ⟨h1, -⟩ := h
                subst h1
                have hf := cellWrite_frame hw
                exact base (Or.inl rfl)
                  (by show s2.pc + 2 = t.pc + 2; rw [hf.1]) hf.2.1
      case skipIfFBitClear =>
        simp only [exec] at h
        cases hr : registerAt t f <;> rw [hr] at h <;>
          simp only [Option.pure_def, Option.bind_eq_bind, Option.none_bind,
            Option.some_bind] at h
        · exact Option.noConfusion h
        · next c =>
            by_cases hsk : (cellRead t c &&& (1 <<< b) % 256 == 0) = true <;>
              simp only [hsk, if_true, if_false, Bool.false_eq_true] at h <;>
              simp only [Option.some.injEq, Prod.mk.injEq] at h <;>
              obtain ⟨h1, -⟩ := h <;> subst h1
            · exact base (Or.inr rfl) rfl rfl
            · exact base (Or.inl rfl) rfl rfl
      case skipIfFBitSet =>
        simp only [exec] at h
        cases hr : registerAt t f <;> rw [hr] at h <;>
          simp only [Option.pure_def, Option.bind_eq_bind, Option.none_bind,
            Option.some_bind] at h
        · exact Option.noConfusion h
        · next c =>
            by_cases hsk : (cellRead t c &&& (1 <<< b) % 256 != 0) = true <;>
              simp only [hsk, if_true, if_false, Bool.false_eq_true] at h <;>
              simp only [Option.some.injEq, Prod.mk.injEq] at h <;>
              obtain ⟨h1, -⟩ := h <;> subst h1
            · exact base (Or.inr rfl) rfl rfl
            · exact base (Or.inl rfl) rfl rfl
  | literalOriented li =>
      obtain ⟨op, k⟩ := li
      cases op
      case returnWithLiteralInW =>
        simp only [exec] at h
        cases hcs : t.callStack <;> rw [hcs] at h
        · exact Option.noConfusion h
        · next top rest =>
            simp only [Option.some.injEq, Prod.mk.injEq] at h
            obtain ⟨h1, -⟩ := h
            subst h1
            exact pop top rest hcs rfl rfl
      all_goals
        simp only [exec] at h
        simp only [Option.some.injEq, Prod.mk.injEq] at h
        obtain ⟨h1, -⟩ := h
        subst h1
        exact base (Or.inl rfl) rfl rfl
  | control ci =>
      cases ci
      case clearWatchDogTimer => exact Option.noConfusion h
      case returnFromInterrupt => exact Option.noConfusion h
      case sleep => exact Option.noConfusion h
      case noop =>
        simp only [exec, Option.some.injEq, Prod.mk.injEq] at h
        obtain ⟨h1, -⟩ := h
        subst h1
        exact base (Or.inl rfl) rfl rfl
      case clearW =>
        simp only [exec, Option.some.injEq, Prod.mk.injEq] at h
        obtain ⟨h1, -⟩ := h
        subst h1
        exact base (Or.inl rfl) rfl rfl
      case clearF f =>
        simp only [exec] at h
        cases hr : registerAt t f <;> rw [hr] at h <;>
          simp only [Option.pure_def, Option.bind_eq_bind, Option.none_bind,
            Option.some_bind] at h
        · exact Option.noConfusion h
        · next c =>
            cases hw : cellWrite t c 0 <;> rw [hw] at h <;>
              simp only [Option.none_bind, Option.some_bind] at h
            · exact Option.noConfusion h
            · next s2 =>
                simp only [Option.some.injEq, Prod.mk.injEq] at h
                obtain ⟨h1, -⟩ := h
                subst h1
                have hf := cellWrite_frame hw
                exact base (Or.inl rfl)
                  (by show (statusSet s2 flagZ true).pc + 2 = t.pc + 2
                      show s2.pc + 2 = t.pc + 2
                      rw [hf.1])
                  (by show (statusSet s2 flagZ true).callStack = t.callStack
                      show s2.callStack = t.callStack
                      rw [hf.2.1])
      case moveWtoF f =>
        simp only [exec] at h
        cases hr : registerAt t f <;> rw [hr] at h <;>
          simp only [Option.pure_def, Option.bind_eq_bind, Option.none_bind,
            Option.some_bind] at h
        · exact Option.noConfusion h
        · next c =>
            cases hw : cellWrite t c t.w <;> rw [hw] at h <;>
              simp only [Option.none_bind, Option.some_bind] at h
            · exact Option.noConfusion h
            · next s2 =>
                simp only [Option.some.injEq, Prod.mk.injEq] at h
                obtain ⟨h1, -⟩ := h
                subst h1
                have hf := cellWrite_frame hw
                exact base (Or.inl rfl)
                  (by show s2.pc + 2 = t.pc + 2; rw [hf.1]) hf.2.1
      case goto a =>
        simp only [exec, Option.some.injEq, Prod.mk.injEq] at h
        obtain ⟨h1, -⟩ := h
        subst h1
        have hg := goto_target_inv (a := a) (x := t.sfr SfrName.pclath) hwf
        exact ⟨hg.1, hg.2, hstk⟩
      case call a =>
        simp only [exec] at h
        split at h
        · exact Option.noConfusion h
        · next hlen =>
            simp only [Option.some.injEq, Prod.mk.injEq] at h
            obtain ⟨h1, -⟩ := h
            subst h1
            have hg := goto_target_inv (a := a) (x := t.sfr SfrName.pclath) hwf
            refine ⟨hg.1, hg.2, ?_⟩
            intro x hx
            rcases List.mem_cons.mp hx with rfl | hx
            · exact ⟨by omega, by omega⟩
            · exact hstk x hx
      case ret =>
        simp only [exec] at h
        cases hcs : t.callStack <;> rw [hcs] at h
        · exact Option.noConfusion h
        · next top rest =>
            simp only [Option.some.injEq, Prod.mk.injEq] at h
            obtain ⟨h1, -⟩ := h
            subst h1
            exact pop top rest hcs rfl rfl

theorem step_inv {t u : VMState} {cy : Nat} (hinv : PCInv t)
    (h : step t = some (u, cy)) : PCInv u := by
  simp only [step] at h
  split at h
  · next hf =>
      cases hd : instructionFromCode ((t.flash (t.pc + 1) <<< 8) ||| t.flash t.pc) <;>
        rw [hd] at h
      · exact Option.noConfusion h
      · next i => exact exec_pc_inv (decode_wf hd) hf hinv h
  · exact Option.noConfusion h

/-- C9.  In every state reachable from the initial state (PC = 0) by
successful steps, the program counter is even and less than 14336; the
proof tracks the invariant through every fetch, PC increment, Goto and
Call target composition and Return pop. -/
theorem c9_pc_invariant (flash : Nat -> Nat) (s : VMState)
    (h : Reaches (initialState flash) s) : Even s.pc ∧ s.pc < 14336 := by
  have hinv : PCInv s := by
    induction h with
    | refl =>
        refine ⟨rfl, by show (0:Nat) < 14336; norm_num, ?_⟩
        intro x hx
        simp [initialState] at hx
    | next hr hs ih => exact step_inv ih hs
  exact ⟨Nat.even_iff.mpr hinv.1, hinv.2.1⟩

/-- C9 witness: the initial state over all-zero flash is reachable. -/
theorem c9_pc_invariant_witness :
    Even (initialState zeroFlash).pc ∧ (initialState zeroFlash).pc < 14336 :=
  c9_pc_invariant zeroFlash (initialState zeroFlash) Reaches.refl


end StkPic
